import Mathlib

/-!
Verification of the PyNEST high-level marshalling layer (`src/pynest/nest/hl_api.py`)
against its natural-language specification.

The Python module is shallowly embedded: Python values that flow through the
marshaller become the inductive type `PyVal`; exceptions become `Except PyErr`;
interactions with the external stack channel (the primitives `sps`, `spp`,
`sr`, `pcd`) are recorded as explicit `ChanOp` traces, and values the channel
produces (e.g. the last-created id popped by `Create`) are passed in as
parameters.  Every definition is translated from the source; where the source
depends on code outside the repository (`pynestkernel`), the doc comment of the
definition says so.
-/

/-- The apostrophe character, used when reproducing the exact Python error
message strings of the source. -/
def apos : String := String.singleton (Char.ofNat 39)

/-- Python values as they flow through `hl_api.py`: `None`, ints, floats
(modelled as rationals, since no claim involves float rounding), strings,
`SLILiteral`s (from `pynestkernel`, external), lists/tuples (conflated: the
source treats them interchangeably via `is_coercible_to_sli_array`), and
string-keyed dictionaries. -/
inductive PyVal where
  | noneV : PyVal
  | int (n : Int) : PyVal
  | float (q : ℚ) : PyVal
  | str (s : String) : PyVal
  | lit (s : String) : PyVal
  | list (xs : List PyVal) : PyVal
  | dict (entries : List (String × PyVal)) : PyVal

/-- Python exceptions raised by the module: `TypeError`, `NESTError`
(from `pynestkernel`), `ValueError`. -/
inductive PyErr where
  | typeError (msg : String)
  | nestError (msg : String)
  | valueError (msg : String)
  deriving DecidableEq

/-- Python type names, used to reproduce interpreter error messages. -/
def pyTypeName : PyVal → String
  | .noneV => "NoneType"
  | .int _ => "int"
  | .float _ => "float"
  | .str _ => "str"
  | .lit _ => "SLILiteral"
  | .list _ => "list"
  | .dict _ => "dict"

/-- Python `len()`: defined on sequences, strings and dicts; `none` means
`len()` raises `TypeError`. -/
def pyLen : PyVal → Option Nat
  | .list xs => some xs.length
  | .str s => some s.length
  | .dict es => some es.length
  | _ => none

/-- The `TypeError` message raised by Python `len()` on a value without a
length. -/
def noLenMsg (v : PyVal) : String :=
  "object of type " ++ apos ++ pyTypeName v ++ apos ++ " has no len()"

/-- `isinstance(v, dict)`. -/
def isDictV : PyVal → Bool
  | .dict _ => true
  | _ => false

/-- `isinstance(v, float)` (a Python `int` is not a `float`). -/
def isFloatV : PyVal → Bool
  | .float _ => true
  | _ => false

/-- `isinstance(v, str)`. -/
def isStrV : PyVal → Bool
  | .str _ => true
  | _ => false

/-- `is_iterable` from the source: `iter(seq)` succeeds on lists, strings and
dicts among the modelled values, and raises `TypeError` otherwise. -/
def is_iterable : PyVal → Bool
  | .list _ => true
  | .str _ => true
  | .dict _ => true
  | _ => false

/-- Python iteration `for x in v`: a list yields its elements, a string its
one-character substrings, a dict its keys.  Iterating anything else raises in
Python; every use below is guarded by an iterability or length check, so the
fallback is unreachable and returns `[]`. -/
def asIterList : PyVal → List PyVal
  | .list xs => xs
  | .str s => s.data.map (fun c => .str (String.singleton c))
  | .dict es => es.map (fun e => .str e.1)
  | _ => []

/-- Python sequence repetition `n * seq` (e.g. `length * item` in
`broadcast`): lists and strings repeat, any other left operand raises
`TypeError` exactly as the interpreter does. -/
def seqMul (n : Nat) : PyVal → Except PyErr PyVal
  | .list xs => .ok (.list (List.flatten (List.replicate n xs)))
  | .str s => .ok (.str (String.join (List.replicate n s)))
  | v => .error (.typeError ("unsupported operand type(s) for *: " ++ apos ++ "int"
      ++ apos ++ " and " ++ apos ++ pyTypeName v ++ apos))

/-- The exact `TypeError` message raised by `broadcast` (hl_api.py line 178):
it interpolates the parameter name and the required length only. -/
def bcastMsg (name : String) (length : Nat) : String :=
  apos ++ name ++ apos ++ " must be a single value, a list with one element or a list with "
    ++ toString length ++ " elements."

/-- `broadcast(item, length, allowed_types, name)` from hl_api.py lines
171-180.  `allowed` plays the role of the `allowed_types` isinstance check.
If the item is atomic it is replicated `length` times; else a length-1
sequence is repeated (`length * item`); else a wrong-length sequence raises
`TypeError`; else the item is returned unchanged. -/
def broadcast (item : PyVal) (length : Nat) (allowed : PyVal → Bool)
    (name : String) : Except PyErr PyVal :=
  if allowed item then .ok (.list (List.replicate length item))
  else
    match pyLen item with
    | Option.none => .error (.typeError (noLenMsg item))
    | Option.some l =>
      if l = 1 then seqMul length item
      else if l ≠ length then .error (.typeError (bcastMsg name length))
      else .ok item

theorem flatten_replicate_singleton (n : Nat) (x : PyVal) :
    List.flatten (List.replicate n [x]) = List.replicate n x := by
  induction n with
  | zero => rfl
  | succ k ih => simp [List.replicate_succ, ih]

/-- C1: for every value, required length and allow-list, `broadcast` returns
`length` copies of an atomic value; `length` copies of the sole element of a
length-1 list; a length-`length` list unchanged; and otherwise fails with a
`TypeError` whose message names the parameter `name` and the required length.
(The received length does not appear in the message: the claim is amended on
that point; the counterexample below exhibits it.) -/
theorem C1_broadcast_shape (item : PyVal) (n : Nat) (allowed : PyVal → Bool)
    (name : String) :
    (allowed item = true →
      broadcast item n allowed name = .ok (.list (List.replicate n item))) ∧
    (∀ x, allowed item = false → item = .list [x] →
      broadcast item n allowed name = .ok (.list (List.replicate n x))) ∧
    (∀ xs, allowed item = false → item = .list xs → xs.length = n →
      broadcast item n allowed name = .ok item) ∧
    (∀ xs, allowed item = false → item = .list xs → xs.length ≠ 1 →
      xs.length ≠ n →
      broadcast item n allowed name = .error (.typeError (bcastMsg name n))) := by
  refine ⟨fun ha => ?_, fun x ha hi => ?_, fun xs ha hi hl => ?_, fun xs ha hi h1 hn => ?_⟩
  · simp [broadcast, ha]
  · subst hi
    simp [broadcast, ha, pyLen, seqMul, flatten_replicate_singleton]
  · subst hi
    subst hl
    rcases eq_or_ne xs.length 1 with h1 | h1
    · rcases xs with _ | ⟨x, _ | ⟨y, t⟩⟩ <;> simp at h1
      simp [broadcast, ha, pyLen, seqMul, flatten_replicate_singleton]
    · simp [broadcast, ha, pyLen, h1]
  · subst hi
    simp [broadcast, ha, pyLen, h1, hn]

/-- C1 witness: the three success shapes and the failure shape of `broadcast`
at concrete inputs, obtained from `C1_broadcast_shape`. -/
theorem C1_broadcast_shape_witness :
    broadcast (PyVal.float 2) 3 isFloatV "w"
      = .ok (.list (List.replicate 3 (PyVal.float 2))) ∧
    broadcast (PyVal.list [PyVal.int 7]) 3 isFloatV "w"
      = .ok (.list (List.replicate 3 (PyVal.int 7))) ∧
    broadcast (PyVal.list [PyVal.int 1, PyVal.int 2, PyVal.int 3]) 3 isFloatV "w"
      = .ok (PyVal.list [PyVal.int 1, PyVal.int 2, PyVal.int 3]) ∧
    broadcast (PyVal.list [PyVal.int 1, PyVal.int 2]) 3 isFloatV "w"
      = .error (.typeError (bcastMsg "w" 3)) := by
  refine ⟨(C1_broadcast_shape (PyVal.float 2) 3 isFloatV "w").1 rfl,
    (C1_broadcast_shape (PyVal.list [PyVal.int 7]) 3 isFloatV "w").2.1
      (PyVal.int 7) rfl rfl,
    (C1_broadcast_shape (PyVal.list [PyVal.int 1, PyVal.int 2, PyVal.int 3]) 3
      isFloatV "w").2.2.1 [PyVal.int 1, PyVal.int 2, PyVal.int 3] rfl rfl rfl,
    (C1_broadcast_shape (PyVal.list [PyVal.int 1, PyVal.int 2]) 3
      isFloatV "w").2.2.2 [PyVal.int 1, PyVal.int 2] rfl rfl
      (by decide) (by decide)⟩

/-- C1 counterexample: the claim says the shape error names the received
length.  Two failing calls whose received lengths differ (3 versus 4, required
length 5) produce byte-for-byte identical error values, and the digit 3 does
not occur in the message, so the error cannot name the received length. -/
theorem C1_counterexample :
    broadcast (PyVal.list [PyVal.int 0, PyVal.int 1, PyVal.int 2]) 5 isDictV "x"
      = broadcast (PyVal.list [PyVal.int 0, PyVal.int 1, PyVal.int 2, PyVal.int 3])
          5 isDictV "x" ∧
    broadcast (PyVal.list [PyVal.int 0, PyVal.int 1, PyVal.int 2]) 5 isDictV "x"
      = .error (.typeError (bcastMsg "x" 5)) ∧
    (bcastMsg "x" 5).data.contains (Char.ofNat 51) = false := by
  refine ⟨rfl, rfl, ?_⟩
  decide

/-- `CONN_LEN` is imported from `pynestkernel`, which is outside this
repository.  Modelled from the spec: the ConnectionHandle is a "fixed 5-field
record", so the connection-handle arity is 5. -/
def CONN_LEN : Nat := 5

/-- One primitive interaction with the external stack channel: `sps` (push),
`pcd` (push connection datums), `sr` (execute a named command), `spp` (pop).
Marshaller operations below return the list of these operations they perform,
in order. -/
inductive ChanOp where
  | push (v : PyVal)
  | pushConns (v : PyVal)
  | run (cmd : String)
  | pop

/-- `is_sequence_of_connections` from hl_api.py lines 149-160: looks at the
first element; a dict or a subscriptable of length `CONN_LEN` counts as a
connection.  (`next(iter(seq))` on an empty sequence raises `StopIteration` in
the source; both call sites return early on empty input, so the `[]` case is
unreachable there.) -/
def is_sequence_of_connections (seq : List PyVal) : Bool :=
  match seq with
  | [] => false
  | c :: _ =>
    match c with
    | .dict _ => true
    | .list xs => xs.length == CONN_LEN
    | .str s => s.length == CONN_LEN
    | _ => false

/-- The `val`-expansion step of `SetStatus` (hl_api.py lines 563-568): when
`val` is given and `params` is a name, an iterable non-string non-dict `val`
becomes one `{params: x}` dict per element, any other `val` becomes the single
dict `{params: val}`. -/
def expandWith (s : String) (v : PyVal) : PyVal :=
  if is_iterable v && !(isStrV v || isDictV v) then
    .list ((asIterList v).map (fun x => .dict [(s, x)]))
  else .dict [(s, v)]

/-- `params` after the optional `val` expansion in `SetStatus`: the expansion
applies only when `val` is given and `params` is a `str` or `SLILiteral`. -/
def expandParams (params : PyVal) (val : Option PyVal) : PyVal :=
  match val with
  | Option.none => params
  | Option.some v =>
    match params with
    | .str s => expandWith s v
    | .lit s => expandWith s v
    | p => p

/-- `SetStatus(nodes, params, val)` from hl_api.py lines 541-581, as the list
of channel operations it performs (or the exception it raises; every raise in
the source happens before the first channel primitive).  The
`is_coercible_to_sli_array` check allows exactly tuples/lists/ranges, i.e. the
`.list` constructor of the model; an empty target list returns immediately
with no channel interaction. -/
def SetStatus (nodes params : PyVal) (val : Option PyVal) :
    Except PyErr (List ChanOp) :=
  match nodes with
  | .list ns =>
    if ns.length = 0 then .ok []
    else
      match broadcast (expandParams params val) ns.length isDictV "params" with
      | .error e => .error e
      | .ok ps =>
        match pyLen ps with
        | Option.some l =>
          if ns.length ≠ l then
            .error (.typeError
              "status dict must be a dict, or list of dicts of length 1 or len(nodes)")
          else
            .ok [(if is_sequence_of_connections ns then ChanOp.pushConns (.list ns)
                  else ChanOp.push (.list ns)),
                 .push ps, .run "2 arraystore",
                 .run "Transpose \x7b arrayload pop SetStatus \x7d forall"]
        | Option.none => .error (.typeError (noLenMsg ps))
  | _ => .error (.typeError "nodes must be a list of nodes or synapses")

/-- `str(x)` as used by the `"/{0}".format(x)` key formatting; only names and
integers reach it in the source, other cases are abstracted as `""`. -/
def pyStrOf : PyVal → String
  | .str s => s
  | .lit s => s
  | .int n => toString n
  | _ => ""

/-- `" ".join("/{0}".format(x) for x in keys)`. -/
def slashNames (xs : List PyVal) : String :=
  String.intercalate " " (xs.map (fun x => "/" ++ pyStrOf x))

/-- The SLI command string `GetStatus` builds from `keys` (hl_api.py lines
600-608): absent keys map every target to its full status dict, a single name
extracts that property, an iterable extracts the ordered value list, anything
else raises `TypeError`. -/
def getStatusCmd : Option PyVal → Except PyErr String
  | Option.none => .ok "\x7b GetStatus \x7d Map"
  | Option.some k =>
    match k with
    | .str s => .ok ("\x7b GetStatus /" ++ s ++ " get \x7d Map")
    | .lit s => .ok ("\x7b GetStatus /" ++ s ++ " get \x7d Map")
    | .list ks =>
      .ok ("\x7b GetStatus \x7d Map \x7b [ [ " ++ slashNames ks
        ++ " ] ] get \x7d Map")
    | .dict es =>
      .ok ("\x7b GetStatus \x7d Map \x7b [ [ "
        ++ slashNames (es.map (fun e => .str e.1)) ++ " ] ] get \x7d Map")
    | _ => .error (.typeError "keys should be either a string or an iterable")

/-- `GetStatus(nodes, keys)` from hl_api.py lines 584-617.  `popped` is the
value the final `spp()` receives from the channel (the channel is external);
the result pairs the returned value with the channel operations performed.
An empty target list returns the list itself before `keys` is looked at. -/
def GetStatus (nodes : PyVal) (keys : Option PyVal) (popped : PyVal) :
    Except PyErr (PyVal × List ChanOp) :=
  match nodes with
  | .list ns =>
    if ns.length = 0 then .ok (.list ns, [])
    else
      match getStatusCmd keys with
      | .error e => .error e
      | .ok cmd =>
        .ok (popped,
          [(if is_sequence_of_connections ns then ChanOp.pushConns (.list ns)
            else ChanOp.push (.list ns)),
           .run cmd, .pop])
  | _ => .error (.typeError "nodes must be a list of nodes or synapses")

/-- C6: `SetStatus` on an empty (coercible) target sequence is a no-op for
every `params` and `val`: it succeeds and performs no channel operation at
all, so the channel state is untouched and no error is raised. -/
theorem C6_setstatus_empty_noop (params : PyVal) (val : Option PyVal) :
    SetStatus (.list []) params val = .ok [] := rfl

/-- C9: `GetStatus` on an empty target list returns the list itself with no
channel interaction, for every `keys` argument — including one that is neither
a name nor a sequence of names, which on a nonempty target list raises
`TypeError` (second conjunct). -/
theorem C9_getstatus_empty_targets (keys : Option PyVal) (popped : PyVal) :
    GetStatus (.list []) keys popped = .ok (.list [], []) ∧
    GetStatus (.list [.int 1]) (some (.int 5)) popped
      = .error (.typeError "keys should be either a string or an iterable") :=
  ⟨rfl, rfl⟩

/-- Python tuple `repr` for a gid tuple, as `str.format` interpolates it into
the `Create` warning: `"(4, 5)"`, with the one-element form `"(4,)"`. -/
def pyTupleRepr (xs : List Int) : String :=
  match xs with
  | [x] => "(" ++ toString x ++ ",)"
  | _ => "(" ++ String.intercalate ", " (xs.map toString) ++ ")"

/-- The warning `Create` emits (hl_api.py lines 534-535) when the per-element
`SetStatus` step fails after the nodes were created: it surfaces the GIDs of
the already-created nodes. -/
def createWarnMsg (gids : List Int) : String :=
  "SetStatus() call failed, but nodes have already been created! The GIDs of the new nodes are: "
    ++ pyTupleRepr gids ++ "."

/-- Python `range(a, b)` over integers, as a list. -/
def intRange (a b : Int) : List Int :=
  (List.range (b - a).toNat).map (fun (i : Nat) => a + (i : Int))

/-- `gids = tuple(range(last_gid - n + 1, last_gid + 1))` from hl_api.py line
528: the contiguous id range reconstructed from the single id the channel
returns. -/
def createGids (n lastGid : Int) : List Int :=
  intRange (lastGid - n + 1) (lastGid + 1)

/-- The channel operations of the creation step of `Create` (hl_api.py lines
518-527): a dict `params` is pushed once before `n`; then the `Create` command
runs and the last-created id is popped. -/
def creationOps (model : String) (n : Int) (params : Option PyVal) : List ChanOp :=
  (match params with
   | Option.some p => if isDictV p then [ChanOp.push p] else []
   | Option.none => []) ++
  [ChanOp.push (.int n),
   .run (if (match params with
             | Option.some p => isDictV p
             | Option.none => false)
         then "/" ++ model ++ " 3 1 roll exch Create"
         else "/" ++ model ++ " exch Create"),
   .pop]

/-- `Create(model, n, params)` from hl_api.py lines 510-538.  `lastGid` is the
last-created id that the channel returns from `spp()` (the engine is external).  The
result is the trace of channel operations, the warning emitted (if any), and
the returned gid tuple or the re-raised exception.  A non-dict `params` is
applied per element through `SetStatus` after creation; if that fails, the
source warns with the created gids and re-raises. -/
def Create (model : String) (n : Int) (params : Option PyVal) (lastGid : Int) :
    List ChanOp × Option String × Except PyErr (List Int) :=
  let gids := createGids n lastGid
  match params with
  | Option.none => (creationOps model n Option.none, Option.none, .ok gids)
  | Option.some p =>
    if isDictV p then (creationOps model n (some p), Option.none, .ok gids)
    else
      match SetStatus (.list (gids.map PyVal.int)) p Option.none with
      | .ok ops => (creationOps model n (some p) ++ ops, Option.none, .ok gids)
      | .error e => (creationOps model n (some p), some (createWarnMsg gids), .error e)

theorem intRange_length (a b : Int) : (intRange a b).length = (b - a).toNat := by
  rw [intRange, List.length_map, List.length_range]

theorem intRange_getElem (a b : Int) (i : Nat) (h : i < (intRange a b).length) :
    (intRange a b).get ⟨i, h⟩ = a + (i : Int) := by
  have h2 : i < (b - a).toNat := by rwa [intRange_length] at h
  simp only [intRange, List.get_eq_getElem, List.getElem_map, List.getElem_range]

theorem intRange_getLast? (a b : Int) (h : a < b) :
    (intRange a b).getLast? = some (b - 1) := by
  have hlt : (b - a).toNat - 1 < (intRange a b).length := by
    rw [intRange_length]; omega
  rw [List.getLast?_eq_getElem?, intRange_length, List.getElem?_eq_getElem hlt]
  have hg := intRange_getElem a b ((b - a).toNat - 1) hlt
  rw [List.get_eq_getElem] at hg
  rw [hg]
  congr 1
  omega

/-- C3: whenever `Create(model, n, params)` returns a gid sequence (for
positive `n`), that sequence has exactly `n` elements, is contiguous starting
at `lastGid - n + 1`, and ends at the id `lastGid` popped from the channel —
the range reconstructed by subtracting `n - 1` from the popped id. -/
theorem C3_create_contiguous_range (model : String) (n lastGid : Int)
    (params : Option PyVal) (gids : List Int) (hn : 1 ≤ n)
    (hok : (Create model n params lastGid).2.2 = .ok gids) :
    gids.length = n.toNat ∧
    gids.getLast? = some lastGid ∧
    ∀ i : Fin gids.length, gids.get i = lastGid - n + 1 + (i.1 : Int) := by
  have hg : gids = createGids n lastGid := by
    rcases params with _ | p
    · simpa [Create] using hok.symm
    · by_cases hd : isDictV p
      · simpa [Create, hd] using hok.symm
      · rcases hs : SetStatus (.list ((createGids n lastGid).map PyVal.int)) p
          Option.none with e | ops
        · simp [Create, hd, hs] at hok
        · simpa [Create, hd, hs] using hok.symm
  subst hg
  refine ⟨?_, ?_, ?_⟩
  · rw [createGids, intRange_length]
    omega
  · rw [createGids, intRange_getLast? _ _ (by omega)]
    congr 1
    omega
  · intro i
    exact intRange_getElem _ _ i.1 i.2

/-- C3 witness: `Create` of 3 nodes with last-created id 10 yields the
contiguous range `(8, 9, 10)` ending at 10. -/
theorem C3_create_contiguous_range_witness :
    ([8, 9, 10] : List Int).length = (3 : Int).toNat ∧
    ([8, 9, 10] : List Int).getLast? = some 10 ∧
    ∀ i : Fin ([8, 9, 10] : List Int).length,
      ([8, 9, 10] : List Int).get i = 10 - 3 + 1 + (i.1 : Int) :=
  C3_create_contiguous_range "iaf_neuron" 3 10 Option.none [8, 9, 10]
    (by decide) rfl

/-- C4: when the per-element `SetStatus` step of `Create` fails after the `n`
elements were created, `Create` re-raises that same error, the emitted warning
surfaces the already-created gids, and the channel trace is exactly the
creation trace of a plain `Create` — the completed creation is neither rolled
back nor followed by any further channel operation, so the created elements
remain live and the side effect is surfaced, not discarded. -/
theorem C4_create_no_rollback (model : String) (n lastGid : Int) (p : PyVal)
    (e : PyErr) (hnd : isDictV p = false)
    (hfail : SetStatus (.list ((createGids n lastGid).map PyVal.int)) p
      Option.none = .error e) :
    Create model n (some p) lastGid
      = (creationOps model n (some p),
         some (createWarnMsg (createGids n lastGid)), .error e) ∧
    creationOps model n (some p) = creationOps model n Option.none := by
  constructor
  · simp [Create, hnd, hfail]
  · simp [creationOps, hnd]

/-- C4 witness: creating 2 nodes with a 3-dict params list makes the inner
`SetStatus` broadcast fail; `Create` re-raises the `TypeError`, warns with the
created gid tuple, and the trace is the plain creation trace. -/
theorem C4_create_no_rollback_witness :
    Create "iaf_neuron" 2
      (some (PyVal.list [.dict [], .dict [], .dict []])) 5
      = (creationOps "iaf_neuron" 2
           (some (PyVal.list [.dict [], .dict [], .dict []])),
         some (createWarnMsg (createGids 2 5)),
         .error (.typeError (bcastMsg "params" 2))) ∧
    creationOps "iaf_neuron" 2 (some (PyVal.list [.dict [], .dict [], .dict []]))
      = creationOps "iaf_neuron" 2 Option.none :=
  C4_create_no_rollback "iaf_neuron" 2 5 (PyVal.list [.dict [], .dict [], .dict []])
    (.typeError (bcastMsg "params" 2)) rfl rfl

/-- The `NESTError` message of `Connect` when `delay` is given without
`params` (hl_api.py line 793). -/
def bothParamsDelayMsg : String :=
  "Both " ++ apos ++ "params" ++ apos ++ " and " ++ apos ++ "delay" ++ apos
    ++ " have to be given."

/-- `Connect(pre, post, params, delay, model)` from hl_api.py lines 742-793,
as the channel operations it performs.  Three exclusive variants selected by
which of `params`/`delay` are present: neither (plain pairwise connect),
`params` only (dict per pair), both (`params` as weights, floats per pair);
`delay` without `params` falls into the final `else` and raises. -/
def Connect (pre post : List PyVal) (params delay : Option PyVal)
    (model : String) : Except PyErr (List ChanOp) :=
  if pre.length ≠ post.length then
    .error (.nestError "pre and post have to be the same length")
  else
    match params, delay with
    | Option.none, Option.none =>
      .ok (List.flatten ((pre.zip post).map (fun sd =>
        [ChanOp.push sd.1, .push sd.2, .run ("/" ++ model ++ " Connect")])))
    | Option.some pr, Option.none =>
      match broadcast pr pre.length isDictV "params" with
      | .error e => .error e
      | .ok ps =>
        match pyLen ps with
        | Option.some l =>
          if l ≠ pre.length then
            .error (.nestError
              "params must be a dict, or list of dicts of length 1 or len(pre).")
          else
            .ok (List.flatten ((pre.zip (post.zip (asIterList ps))).map (fun t =>
              [ChanOp.push t.1, .push t.2.1, .push t.2.2,
               .run ("/" ++ model ++ " Connect")])))
        | Option.none => .error (.typeError (noLenMsg ps))
    | Option.some pr, Option.some dl =>
      match broadcast pr pre.length isFloatV "params" with
      | .error e => .error e
      | .ok ws =>
        match pyLen ws with
        | Option.some lw =>
          if lw ≠ pre.length then
            .error (.nestError ("params must be a float, or list of floats of length 1 or len(pre)"
              ++ " and will be used as weight(s)."))
          else
            match broadcast dl pre.length isFloatV "delay" with
            | .error e => .error e
            | .ok ds =>
              match pyLen ds with
              | Option.some ld =>
                if ld ≠ pre.length then
                  .error (.nestError
                    "delay must be a float, or list of floats of length 1 or len(pre).")
                else
                  .ok (List.flatten
                    ((pre.zip (post.zip ((asIterList ws).zip (asIterList ds)))).map
                      (fun t =>
                        [ChanOp.push t.1, .push t.2.1, .push t.2.2.1, .push t.2.2.2,
                         .run ("/" ++ model ++ " Connect")])))
              | Option.none => .error (.typeError (noLenMsg ds))
        | Option.none => .error (.typeError (noLenMsg ws))
    | Option.none, Option.some _ => .error (.nestError bothParamsDelayMsg)

/-- C5: `Connect(pre, post, delay=d)` with `params = None` fails with the
`NESTError` stating that both params and delay have to be given (when the
`pre`/`post` lengths agree; with mismatched lengths the earlier length check
fires, which still fails) — no input makes `Connect` succeed with a delay but
no params. -/
theorem C5_connect_delay_without_params (pre post : List PyVal) (d : PyVal)
    (model : String) :
    (pre.length = post.length →
      Connect pre post Option.none (some d) model
        = .error (.nestError bothParamsDelayMsg)) ∧
    (∀ ops, Connect pre post Option.none (some d) model ≠ .ok ops) := by
  constructor
  · intro h
    simp [Connect, h]
  · intro ops
    by_cases h : pre.length = post.length
    · simp [Connect, h]
    · simp [Connect, h]

/-- C5 witness: connecting `[1] → [2]` with `delay = 1.0` and no params
raises the both-params-and-delay error and never succeeds. -/
theorem C5_connect_delay_without_params_witness :
    Connect [PyVal.int 1] [PyVal.int 2] Option.none (some (PyVal.float 1)) "static_synapse"
      = .error (.nestError bothParamsDelayMsg) ∧
    ∀ ops, Connect [PyVal.int 1] [PyVal.int 2] Option.none (some (PyVal.float 1))
      "static_synapse" ≠ .ok ops :=
  ⟨(C5_connect_delay_without_params [PyVal.int 1] [PyVal.int 2] (PyVal.float 1)
      "static_synapse").1 rfl,
   (C5_connect_delay_without_params [PyVal.int 1] [PyVal.int 2] (PyVal.float 1)
      "static_synapse").2⟩

/-- A connection handle: the fixed 5-field record of the spec.  The flat
5-tuple layout on the channel — `(source-gid, target-gid, target-thread,
synapse-id, port)` — is documented in the `GetConnections` docstring
(hl_api.py lines 713-715). -/
structure ConnectionHandle where
  source : Int
  targetPlaceholder : Int
  targetThread : Int
  synapseModelID : Int
  port : Int
  deriving DecidableEq

/-- The flat channel representation of a handle: the documented 5-tuple.
The push-side encoding lives in `pynestkernel` (outside this repository);
modelled from the spec and the `GetConnections` docstring. -/
def encodeConn (h : ConnectionHandle) : PyVal :=
  .list [.int h.source, .int h.targetPlaceholder, .int h.targetThread,
         .int h.synapseModelID, .int h.port]

/-- Python `int()` truncation of a rational toward zero (`Int.tdiv` is
T-division). -/
def ratTrunc (q : ℚ) : Int := Int.tdiv q.num q.den

/-- Python `int(x)` coercion as `FindConnections` applies it to the popped
tuple fields: exact on ints, truncating on floats, parsing on numeric
strings, raising (`none`) otherwise. -/
def pyInt : PyVal → Option Int
  | .int n => some n
  | .float q => some (ratTrunc q)
  | .str s => s.toInt?
  | _ => none

/-- The decoding comprehension of `FindConnections` (hl_api.py lines
678-685): each flat 5-tuple `(src, _, tt, sm, prt)` popped from the channel
becomes a dict of `source`, `target_thread`, `synapse_modelid` and `port`,
each coerced with `int()`.  The second tuple field is bound to `_` and
discarded. -/
def decodeConn (v : PyVal) : Option PyVal :=
  match v with
  | .list [src, _t, tt, sm, prt] =>
    match pyInt src, pyInt tt, pyInt sm, pyInt prt with
    | some s, some t, some m, some p =>
      some (.dict [("source", .int s), ("target_thread", .int t),
                   ("synapse_modelid", .int m), ("port", .int p)])
    | _, _, _, _ => none
  | _ => none

/-- C2 counterexample: two distinct valid handles that differ only in the
target field decode to the same value, so `decode(encode(h)) == h` — decoding
preserving every field — is false: the decoder discards the second field of
the flat tuple. -/
theorem C2_counterexample :
    (⟨1, 2, 3, 4, 5⟩ : ConnectionHandle) ≠ (⟨1, 99, 3, 4, 5⟩ : ConnectionHandle) ∧
    decodeConn (encodeConn (⟨1, 2, 3, 4, 5⟩ : ConnectionHandle))
      = decodeConn (encodeConn (⟨1, 99, 3, 4, 5⟩ : ConnectionHandle)) := by
  exact ⟨by decide, rfl⟩

/-- C2 (amended): decoding the flat channel representation of a valid
handle yields the `source`, `target_thread`, `synapse_modelid` and `port`
fields, each coerced to integer and preserved exactly; the target placeholder
(second) field is discarded by the decoder, so the round trip preserves four
of the five fields and is not the identity. -/
theorem C2_decode_encode (h : ConnectionHandle) :
    decodeConn (encodeConn h)
      = some (.dict [("source", .int h.source),
                     ("target_thread", .int h.targetThread),
                     ("synapse_modelid", .int h.synapseModelID),
                     ("port", .int h.port)]) := rfl

/-- The depth query, `sr` applied to `count`: the SLI `count` command pushes the current operand count
onto the stack (the depth query of the spec). -/
def srCount (st : List PyVal) : List PyVal := .int (st.length : Int) :: st

/-- `spp()` as `stack_checker` uses it right after running `count`: pop the top
value and read it as an integer.  `count` always pushes an int, so the
non-int fallbacks are unreachable there. -/
def sppPopInt : List PyVal → Int × List PyVal
  | .int k :: rest => (k, rest)
  | _ :: rest => (0, rest)
  | [] => (0, [])

/-- The exact `NESTError` message of `stack_checker` (hl_api.py lines 97-99):
it interpolates the name of the wrapped function and the leftover element count. -/
def imbalanceMsg (fname : String) (leftover : Int) : String :=
  "Function " ++ apos ++ fname ++ apos ++ " left " ++ toString leftover
    ++ " elements on the stack."

/-- `stack_checker(f)` from hl_api.py lines 78-102, applied to the debug flag
it reads at call time.  A wrapped operation `f` maps a channel stack to the
resulting stack, its result, and the channel operations it performed; the
wrapper returns the result together with the full operation trace, or raises
when the operation changed the net stack depth in debug mode. -/
def stack_checker {R : Type} (debug : Bool) (fname : String)
    (f : List PyVal → List PyVal × R × List ChanOp) (st : List PyVal) :
    Except PyErr (List PyVal × R × List ChanOp) :=
  if debug = false then .ok (f st)
  else
    let bp := sppPopInt (srCount st)
    let fr := f bp.2
    let ap := sppPopInt (srCount fr.1)
    let leftover := ap.1 - bp.1
    if leftover ≠ 0 then .error (.nestError (imbalanceMsg fname leftover))
    else .ok (ap.2, fr.2.1,
      [ChanOp.run "count", .pop] ++ fr.2.2 ++ [.run "count", .pop])

/-- `__debug = False` (hl_api.py line 58): diagnostic mode is disabled by
default. -/
def __debug : Bool := false

/-- C7: in diagnostic mode, a guarded operation whose net channel-depth
change is nonzero raises the `NESTError` naming the operation and the leaked
element count, while a net-zero operation returns the result of the
underlying operation normally. -/
theorem C7_stack_balance_guard {R : Type} (fname : String)
    (f : List PyVal → List PyVal × R × List ChanOp) (st : List PyVal) :
    (((f st).1.length : Int) - (st.length : Int) ≠ 0 →
      stack_checker true fname f st
        = .error (.nestError (imbalanceMsg fname
            (((f st).1.length : Int) - (st.length : Int))))) ∧
    (((f st).1.length : Int) - (st.length : Int) = 0 →
      stack_checker true fname f st
        = .ok ((f st).1, (f st).2.1,
            [ChanOp.run "count", .pop] ++ (f st).2.2 ++ [.run "count", .pop])) := by
  constructor <;> intro h <;>
    simp [stack_checker, srCount, sppPopInt, h]

/-- A wrapped operation that pushes one value and forgets to pop it: the
canonical stack-imbalance offender. -/
def leakyOp : List PyVal → List PyVal × Unit × List ChanOp :=
  fun st => (PyVal.int 7 :: st, (), [ChanOp.push (.int 7)])

/-- A wrapped operation with net-zero stack effect. -/
def balancedOp : List PyVal → List PyVal × Unit × List ChanOp :=
  fun st => (st, (), [ChanOp.run "ResetKernel"])

/-- C7 witness: in debug mode the leaky operation raises the imbalance error
with leak count 1; the balanced operation returns its result normally. -/
theorem C7_stack_balance_guard_witness :
    stack_checker true "leaky" leakyOp []
      = .error (.nestError (imbalanceMsg "leaky" 1)) ∧
    stack_checker true "good" balancedOp []
      = .ok ([], (), [ChanOp.run "count", .pop, .run "ResetKernel",
                      .run "count", .pop]) := by
  refine ⟨?_, ?_⟩
  · exact (C7_stack_balance_guard "leaky" leakyOp []).1 (by decide)
  · exact (C7_stack_balance_guard "good" balancedOp []).2 (by decide)

/-- C8: with diagnostic mode disabled — the module default `__debug = False`
— the stack-checking wrapper is an identity: it returns exactly the
stack, result and operation trace of the underlying operation, with no depth
query or any other channel interaction added. -/
theorem C8_disabled_wrapper_identity {R : Type} (fname : String)
    (f : List PyVal → List PyVal × R × List ChanOp) (st : List PyVal) :
    __debug = false ∧ stack_checker __debug fname f st = .ok (f st) :=
  ⟨rfl, rfl⟩

/-- The type of an operation using the low-level API: from a channel stack to
the resulting stack, a Python result value, and the channel operations
performed. -/
def OpFun : Type := List PyVal → List PyVal × PyVal × List ChanOp

/-- The type of a stack-checked operation: it consults the process-wide debug
flag at call time. -/
def CheckedFun : Type :=
  Bool → List PyVal → Except PyErr (List PyVal × PyVal × List ChanOp)

/-- `stack_checker` as a decorator: the closure it returns reads the debug
flag when invoked (hl_api.py line 88). -/
def stackCheckerWrap (fname : String) (f : OpFun) : CheckedFun :=
  fun dbg st => stack_checker dbg fname f st

/-- A class attribute as `inspect.getmembers` sees it: a method (carrying the
underlying function and its name), an already-wrapped method, or a non-method
attribute. -/
inductive Attr where
  | method (fname : String) (f : OpFun)
  | checked (fname : String) (g : CheckedFun)
  | plain (v : PyVal)

/-- `inspect.ismethod`, the predicate of the `getmembers` call in
`check_stack`. -/
def isMethodAttr : Attr → Bool
  | .method _ _ => true
  | _ => false

/-- An argument to `check_stack`: a plain function, a class (its named
attributes), or any other object — carried as its repr string, the only
thing the source uses of it (in the `ValueError` message). -/
inductive PyObject where
  | func (fname : String) (f : OpFun)
  | cls (attrs : List (String × Attr))
  | otherObj (objRepr : String)

/-- The result of `check_stack`: a wrapped function, or the class with its
`test_` methods rebound in place. -/
inductive DecoratedObject where
  | checkedFunc (fname : String) (g : CheckedFun)
  | cls (attrs : List (String × Attr))

/-- `name.startswith("test_")`, computed structurally over the character
lists. -/
def strStartsWith (s pre : String) : Bool := List.isPrefixOf pre.data s.data

/-- The per-attribute action of the `check_stack` class loop (hl_api.py lines
115-117): only method attributes whose name starts with `test_` are replaced
by their stack-checked wrapper (`setattr`); every other attribute is left
untouched. -/
def decorateAttr : String × Attr → String × Attr
  | (name, .method fn f) =>
    if strStartsWith name "test_" then (name, .checked fn (stackCheckerWrap fn f))
    else (name, .method fn f)
  | (name, a) => (name, a)

/-- `check_stack(thing)` from hl_api.py lines 105-120: wraps a function,
wraps the `test_` methods of a class, raises `ValueError` on anything else. -/
def check_stack : PyObject → Except PyErr DecoratedObject
  | .func fn f => .ok (.checkedFunc fn (stackCheckerWrap fn f))
  | .cls attrs => .ok (.cls (attrs.map decorateAttr))
  | .otherObj r => .error (.valueError ("unable to decorate " ++ r))

/-- C10: `check_stack` wraps a plain function; on a class it rewrites the
attribute list pointwise, changing exactly the method attributes whose name
starts with `test_` (every other attribute — non-`test_` methods and
non-method attributes alike — is returned unchanged); and on anything that is
neither a function nor a class it raises `ValueError`. -/
theorem C10_check_stack_selective :
    (∀ fn f, check_stack (.func fn f)
      = .ok (.checkedFunc fn (stackCheckerWrap fn f))) ∧
    (∀ attrs, check_stack (.cls attrs) = .ok (.cls (attrs.map decorateAttr))) ∧
    (∀ name a, ¬(strStartsWith name "test_" = true ∧ isMethodAttr a = true) →
      decorateAttr (name, a) = (name, a)) ∧
    (∀ name fn f, strStartsWith name "test_" = true →
      decorateAttr (name, .method fn f)
        = (name, .checked fn (stackCheckerWrap fn f))) ∧
    (∀ r, check_stack (.otherObj r)
      = .error (.valueError ("unable to decorate " ++ r))) := by
  refine ⟨fun fn f => rfl, fun attrs => rfl, fun name a h => ?_,
    fun name fn f h => ?_, fun r => rfl⟩
  · rcases a with ⟨fn, f⟩ | ⟨fn, g⟩ | v
    · have hs : strStartsWith name "test_" = false := by
        cases hh : strStartsWith name "test_"
        · rfl
        · exact absurd ⟨hh, rfl⟩ h
      simp [decorateAttr, hs]
    · rfl
    · rfl
  · simp [decorateAttr, h]

/-- A trivial operation, used as a concrete method body in the `check_stack`
witness. -/
def idOp : OpFun := fun st => (st, .noneV, [])

/-- C10 witness: a non-`test_` method is left unchanged, a `test_` method is
rebound to its wrapper. -/
theorem C10_check_stack_selective_witness :
    decorateAttr ("helper", Attr.method "helper" idOp)
      = ("helper", Attr.method "helper" idOp) ∧
    decorateAttr ("test_a", Attr.method "test_a" idOp)
      = ("test_a", Attr.checked "test_a" (stackCheckerWrap "test_a" idOp)) :=
  ⟨C10_check_stack_selective.2.2.1 "helper" (Attr.method "helper" idOp)
      (by decide),
   C10_check_stack_selective.2.2.2.1 "test_a" "test_a" idOp (by decide)⟩
